import Mathlib

/-!
Shallow embedding of the Synchronization Engine of the NSO backend:
the upload/download orchestrators and the sync-session ledger from
`src/routes/sync.js`, together with the schema-level behaviour
(defaults, pre-save hooks, instance methods) of `src/models/SyncLog.js`,
`src/models/Diagnosis.js` and `src/models/Activity.js`.

Modelling conventions:
- timestamps are naturals (milliseconds since the epoch, as JS `Date`);
- a Mongo collection is a list of documents; `findOne` is `List.find?`
  (first match), saving a fetched document back writes it at its
  position, inserting appends at the end;
- record payload content that the engine stores verbatim is a natural;
- JS object field absence is `Option`; the JS truthiness test
  `if (x)` on an optional string is "present and non-empty".
-/

namespace NSOSync

/-- Milliseconds since the epoch, as in a JS `Date`. -/
abbrev Timestamp := Nat

/-- A client-authored record inside the upload `data` mapping.  JS items are
duck-typed objects; this structure carries the union of the fields the three
item-processor branches of `POST /upload` read. -/
structure Item where
  itemId : String
  sessionId : String
  activityType : String
  timestamp : Timestamp
  patientId : Option String
  createdAt : Timestamp
  lastModified : Timestamp
  payload : Nat
  firstName : Option String
  lastName : Option String
  facility : Option String
  state : Option String
  contactInfo : Option String
  deriving Repr, DecidableEq

/-- A stored document of the `Activity` collection (`src/models/Activity.js`):
the fields the sync engine reads or writes. -/
structure StoredActivity where
  userId : Nat
  deviceId : String
  sessionId : String
  activityType : String
  timestamp : Timestamp
  payload : Nat
  syncStatus : String
  syncedAt : Option Timestamp
  updatedAt : Timestamp
  deriving Repr, DecidableEq

/-- A stored document of the `Diagnosis` collection (`src/models/Diagnosis.js`):
the fields the sync engine reads or writes.  The schema's
`pre('save')` hook sets `lastModified = Date.now()` on every save. -/
structure StoredDiagnosis where
  userId : Nat
  deviceId : String
  sessionId : String
  patientId : Option String
  createdAt : Timestamp
  lastModified : Timestamp
  payload : Nat
  syncStatus : String
  syncedAt : Option Timestamp
  updatedAt : Timestamp
  deriving Repr, DecidableEq

/-- The caller's `User` document: the profile fields touched by the
`user_profile` branch of upload and returned by download. -/
structure UserDoc where
  firstName : String
  lastName : String
  facility : String
  state : String
  contactInfo : String
  updatedAt : Timestamp
  deriving Repr, DecidableEq

/-- The durable Record Store: the persistent collections the sync routes
touch, plus the calling user's profile document. -/
structure ServerState where
  activities : List StoredActivity
  diagnoses : List StoredDiagnosis
  user : UserDoc
  deriving Repr, DecidableEq

/-- Replace the first element satisfying `p` by `a` (a Mongo `save` on a
document fetched with `findOne` writes it back in place). -/
def updateFirst (p : α → Bool) (a : α) : List α → List α
  | [] => []
  | x :: xs => if p x then a :: xs else x :: updateFirst p a xs

/-- Apply `f` to the first element satisfying `p`. -/
def updateFirstWith (p : α → Bool) (f : α → α) : List α → List α
  | [] => []
  | x :: xs => if p x then f x :: xs else x :: updateFirstWith p f xs

/-- JS truthiness of an optional string: `undefined`, `null` and the empty
string are falsy. -/
def jsTruthy : Option String → Bool
  | none => false
  | some s => s ≠ ""

/-- The duplicate-check filter of the `activities` upload branch:
`Activity.findOne({userId, deviceId, sessionId, activityType, timestamp})`. -/
def activityKeyMatch (uid : Nat) (did : String) (item : Item) (a : StoredActivity) : Bool :=
  a.userId == uid && a.deviceId == did && a.sessionId == item.sessionId &&
    a.activityType == item.activityType && a.timestamp == item.timestamp

/-- The existing-record lookup of the `diagnoses` upload branch:
`Diagnosis.findOne({userId, deviceId, sessionId, 'patient.id', createdAt})`. -/
def diagnosisKeyMatch (uid : Nat) (did : String) (item : Item) (d : StoredDiagnosis) : Bool :=
  d.userId == uid && d.deviceId == did && d.sessionId == item.sessionId &&
    d.patientId == item.patientId && d.createdAt == item.createdAt

/-- The document built by `new Activity({...item, userId, deviceId,
syncStatus: 'synced', syncedAt: new Date()})` followed by `save()`
(`timestamps: true` stamps `updatedAt` with the current time). -/
def newActivityDoc (uid : Nat) (did : String) (now : Timestamp) (item : Item) : StoredActivity :=
  { userId := uid
    deviceId := did
    sessionId := item.sessionId
    activityType := item.activityType
    timestamp := item.timestamp
    payload := item.payload
    syncStatus := "synced"
    syncedAt := some now
    updatedAt := now }

/-- The document built by `new Diagnosis({...item, userId, deviceId,
syncStatus: 'synced', syncedAt: new Date()})` followed by `save()`: the
diagnosis `pre('save')` hook overwrites `lastModified` with `Date.now()`,
and `timestamps: true` stamps `updatedAt`. -/
def newDiagnosisDoc (uid : Nat) (did : String) (now : Timestamp) (item : Item) : StoredDiagnosis :=
  { userId := uid
    deviceId := did
    sessionId := item.sessionId
    patientId := item.patientId
    createdAt := item.createdAt
    lastModified := now
    payload := item.payload
    syncStatus := "synced"
    syncedAt := some now
    updatedAt := now }

/-- The result of `Object.assign(existingDiagnosis, item)` followed by
`syncStatus = 'synced'; syncedAt = new Date(); save()`: every item field is
copied over the stored document, then the `pre('save')` hook overwrites
`lastModified` with `Date.now()` and `timestamps: true` stamps `updatedAt`. -/
def overwriteDiagnosis (existing : StoredDiagnosis) (now : Timestamp) (item : Item) : StoredDiagnosis :=
  { existing with
    sessionId := item.sessionId
    patientId := item.patientId
    createdAt := item.createdAt
    lastModified := now
    payload := item.payload
    syncStatus := "synced"
    syncedAt := some now
    updatedAt := now }

/-- The `savedItem` value produced by one item-processor branch. -/
inductive SavedDoc where
  | act (a : StoredActivity)
  | diag (d : StoredDiagnosis)
  | profileUpdated (fields : List String)
  deriving Repr, DecidableEq

/-- Outcome of processing one upload item: a normal completion of the
`switch` (with the new store and the `savedItem`, which stays `null` for a
field-less profile update), the diagnosis conflict branch (which reaches
`continue` after recording the conflict), or a thrown item-level error. -/
inductive ItemOutcome where
  | saved (st : ServerState) (doc : Option SavedDoc)
  | conflictDetected (serverVersion : StoredDiagnosis)
  | errored (message : String)
  deriving Repr, DecidableEq

/-- The `case 'activities'` branch of `POST /upload`: exact-match
duplicate lookup, insert only when no match, otherwise return the
existing record. -/
def processActivityItem (uid : Nat) (did : String) (now : Timestamp)
    (item : Item) (st : ServerState) : ItemOutcome :=
  match st.activities.find? (activityKeyMatch uid did item) with
  | none =>
      let a := newActivityDoc uid did now item
      .saved { st with activities := st.activities ++ [a] } (some (.act a))
  | some existing => .saved st (some (.act existing))

/-- The `case 'diagnoses'` branch of `POST /upload`: existing-record
lookup, then the timestamp-based conflict decision. -/
def processDiagnosisItem (uid : Nat) (did : String) (now : Timestamp)
    (item : Item) (st : ServerState) : ItemOutcome :=
  match st.diagnoses.find? (diagnosisKeyMatch uid did item) with
  | none =>
      let d := newDiagnosisDoc uid did now item
      .saved { st with diagnoses := st.diagnoses ++ [d] } (some (.diag d))
  | some existing =>
      if existing.lastModified < item.lastModified then
        let d := overwriteDiagnosis existing now item
        .saved { st with diagnoses := updateFirst (diagnosisKeyMatch uid did item) d st.diagnoses }
          (some (.diag d))
      else if item.lastModified < existing.lastModified then
        .conflictDetected existing
      else
        .saved st (some (.diag existing))

/-- The list of allowed profile fields present (JS-truthy) on the item, in
the order the `user_profile` branch tests them. -/
def profileFieldsPresent (item : Item) : List String :=
  (if jsTruthy item.firstName then ["firstName"] else []) ++
  (if jsTruthy item.lastName then ["lastName"] else []) ++
  (if jsTruthy item.facility then ["facility"] else []) ++
  (if jsTruthy item.state then ["state"] else []) ++
  (if jsTruthy item.contactInfo then ["contactInfo"] else [])

/-- The `case 'user_profile'` branch of `POST /upload`: apply only the
allowed fields that are present; when none is present `savedItem` stays
`null`, which still counts as a success. -/
def processUserProfileItem (now : Timestamp) (item : Item) (st : ServerState) : ItemOutcome :=
  let fields := profileFieldsPresent item
  if fields.isEmpty then
    .saved st none
  else
    let u : UserDoc :=
      { firstName := if jsTruthy item.firstName then item.firstName.getD "" else st.user.firstName
        lastName := if jsTruthy item.lastName then item.lastName.getD "" else st.user.lastName
        facility := if jsTruthy item.facility then item.facility.getD "" else st.user.facility
        state := if jsTruthy item.state then item.state.getD "" else st.user.state
        contactInfo := if jsTruthy item.contactInfo then item.contactInfo.getD "" else st.user.contactInfo
        updatedAt := now }
    .saved { st with user := u } (some (.profileUpdated fields))

/-- The `switch (dataType)` of the upload item loop; the `default` case
throws `Unsupported data type: <name>`. -/
def processItem (uid : Nat) (did : String) (now : Timestamp)
    (dataType : String) (item : Item) (st : ServerState) : ItemOutcome :=
  match dataType with
  | "activities" => processActivityItem uid did now item st
  | "diagnoses" => processDiagnosisItem uid did now item st
  | "user_profile" => processUserProfileItem now item st
  | _ => .errored ("Unsupported data type: " ++ dataType)

/-! ## Sync Session ledger (`src/models/SyncLog.js`) -/

/-- The `progress` sub-document of a sync session; all counters default
to `0` per the schema. -/
structure Progress where
  totalItems : Nat := 0
  processedItems : Nat := 0
  successfulItems : Nat := 0
  failedItems : Nat := 0
  skippedItems : Nat := 0
  percentage : Nat := 0
  deriving Repr, DecidableEq

/-- JS `Math.round(processed / total * 100)` for naturals with `total > 0`:
round half away from zero, i.e. `floor(x + 1/2)` for the nonnegative
rational `x = 100 * processed / total`. -/
def roundPct (processed total : Nat) : Nat :=
  (200 * processed + total) / (2 * total)

/-- An entry of the session's `errors` array (`addError` arguments plus
schema defaults). -/
structure ErrorEntry where
  code : String
  message : String
  severity : String
  dataType : Option String
  itemId : Option String
  retryable : Bool := true
  deriving Repr, DecidableEq

/-- An entry of the session's `conflicts` array.  `resolution` defaults to
`manual_review` per the schema; `localVersion` holds the incoming item and
`serverVersion` the stored diagnosis, as passed by the upload route. -/
structure ConflictEntry where
  itemId : String
  dataType : String
  conflictType : String
  resolution : String := "manual_review"
  resolvedAt : Option Timestamp := none
  resolvedBy : Option Nat := none
  localVersion : Option Item := none
  serverVersion : Option StoredDiagnosis := none
  mergedVersion : Option Nat := none
  deriving Repr, DecidableEq

/-- A sync-session document: the fields of `syncLogSchema` the engine
reads or writes (telemetry sub-documents that never gate behaviour are
omitted). -/
structure SyncLog where
  userId : Nat
  deviceId : String
  sessionId : String
  status : String := "initiated"
  progress : Progress := {}
  errors : List ErrorEntry := []
  conflicts : List ConflictEntry := []
  startedAt : Timestamp := 0
  completedAt : Option Timestamp := none
  deriving Repr, DecidableEq

/-- The `syncLogSchema.pre('save')` hook: when `totalItems > 0`,
recompute `percentage = Math.round(processedItems / totalItems * 100)`.
Every model method below ends in `save()`, so each applies this hook. -/
def presave (log : SyncLog) : SyncLog :=
  if 0 < log.progress.totalItems then
    { log with progress :=
        { log.progress with
          percentage := roundPct log.progress.processedItems log.progress.totalItems } }
  else log

/-- `syncLog.updateProgress(processed, successful, failed)` as called by the
sync routes (the optional `skippedItems` argument is never supplied, so that
counter is left untouched); ends in `save()`. -/
def SyncLog.updateProgress (log : SyncLog) (processed successful failed : Nat) : SyncLog :=
  presave
    { log with progress :=
        { log.progress with
          processedItems := processed
          successfulItems := successful
          failedItems := failed } }

/-- `syncLog.addError(code, message, severity, dataType, itemId)`: append to
the `errors` array and `save()`. -/
def SyncLog.addError (log : SyncLog) (code message severity : String)
    (dataType itemId : Option String) : SyncLog :=
  presave
    { log with errors :=
        log.errors ++ [{ code := code
                         message := message
                         severity := severity
                         dataType := dataType
                         itemId := itemId }] }

/-- `syncLog.addConflict(itemId, dataType, conflictType, localVersion,
serverVersion)`: append to the `conflicts` array (schema default
`resolution = manual_review`) and `save()`. -/
def SyncLog.addConflict (log : SyncLog) (itemId dataType conflictType : String)
    (localVersion : Item) (serverVersion : StoredDiagnosis) : SyncLog :=
  presave
    { log with conflicts :=
        log.conflicts ++ [{ itemId := itemId
                            dataType := dataType
                            conflictType := conflictType
                            localVersion := some localVersion
                            serverVersion := some serverVersion }] }

/-- `syncLog.markCompleted(status)`: set the status, stamp `completedAt`,
and `save()`. -/
def SyncLog.markCompleted (log : SyncLog) (status : String) (now : Timestamp) : SyncLog :=
  presave { log with status := status, completedAt := some now }

/-! ## Upload orchestrator (`POST /upload`) -/

/-- A `details.successful` entry of the upload response. -/
structure SuccessDetail where
  itemId : String
  dataType : String
  deriving Repr, DecidableEq

/-- A `details.failed` entry of the upload response. -/
structure FailureDetail where
  itemId : String
  dataType : String
  error : String
  deriving Repr, DecidableEq

/-- A `details.conflicts` entry of the upload response. -/
structure ConflictDetail where
  itemId : String
  dataType : String
  reason : String
  deriving Repr, DecidableEq

/-- The `results` accumulator of the upload loop. -/
structure UploadResults where
  successful : List SuccessDetail := []
  failed : List FailureDetail := []
  conflicts : List ConflictDetail := []
  deriving Repr, DecidableEq

/-- The mutable state threaded through the upload loop: the Record Store,
the session document, and the `results` accumulator. -/
structure UploadLoopState where
  store : ServerState
  log : SyncLog
  results : UploadResults
  deriving Repr, DecidableEq

/-- The body of the inner `for (const item of data[dataType])` loop of
`POST /upload`: run the item processor, then either push to
`results.successful` and update progress, record the conflict and
`continue`, or catch the item error, push to `results.failed` and append a
session error. -/
def uploadItemStep (uid : Nat) (did : String) (now : Timestamp)
    (dataType : String) (item : Item) (s : UploadLoopState) : UploadLoopState :=
  match processItem uid did now dataType item s.store with
  | .saved st _ =>
      let results :=
        { s.results with successful := s.results.successful ++ [⟨item.itemId, dataType⟩] }
      let log := s.log.updateProgress
        (results.successful.length + results.failed.length)
        results.successful.length results.failed.length
      ⟨st, log, results⟩
  | .conflictDetected server =>
      let log := s.log.addConflict item.itemId dataType "concurrent_modification" item server
      let results :=
        { s.results with
          conflicts := s.results.conflicts ++ [⟨item.itemId, dataType, "concurrent_modification"⟩] }
      ⟨s.store, log, results⟩
  | .errored msg =>
      let results :=
        { s.results with failed := s.results.failed ++ [⟨item.itemId, dataType, msg⟩] }
      let log := s.log.addError "ITEM_PROCESSING_ERROR" msg "medium" (some dataType)
        (some item.itemId)
      ⟨s.store, log, results⟩

/-- `data[dataType]`: the upload `data` mapping is a JS object, modelled as
an association list from data-type name to record sequence; lookup returns
the first binding. -/
def lookupData (data : List (String × List Item)) (dataType : String) : Option (List Item) :=
  (data.find? (fun kv => kv.1 == dataType)).map (fun kv => kv.2)

/-- One iteration of the outer `for (const dataType of dataTypes)` loop:
skip when `data[dataType]` is missing (a non-array value behaves the same),
otherwise run the item loop over its records in order. -/
def uploadDataTypeStep (uid : Nat) (did : String) (now : Timestamp)
    (data : List (String × List Item)) (s : UploadLoopState) (dataType : String) : UploadLoopState :=
  match lookupData data dataType with
  | none => s
  | some items => items.foldl (fun acc it => uploadItemStep uid did now dataType it acc) s

/-- The full per-item processing loop of `POST /upload`. -/
def uploadLoop (uid : Nat) (did : String) (now : Timestamp)
    (dataTypes : List String) (data : List (String × List Item))
    (s : UploadLoopState) : UploadLoopState :=
  dataTypes.foldl (uploadDataTypeStep uid did now data) s

/-- `Object.values(data).reduce((sum, items) => sum + (Array.isArray(items)
? items.length : 0), 0)`: the `totalItems` computed at session creation sums
the lengths of ALL array values of `data`, whatever their keys. -/
def totalItemCount (data : List (String × List Item)) : Nat :=
  data.foldl (fun sum kv => sum + kv.2.length) 0

/-- The sync-session document created at the start of `POST /upload`
(status `in_progress`, `progress.totalItems` from `data`), after its first
`save()`. -/
def initialUploadLog (uid : Nat) (did : String) (sessionId : String) (now : Timestamp)
    (data : List (String × List Item)) : SyncLog :=
  presave
    { userId := uid
      deviceId := did
      sessionId := sessionId
      status := "in_progress"
      startedAt := now
      progress := { totalItems := totalItemCount data } }

/-- The state of the upload call just before the per-item loop runs. -/
def initialUploadState (uid : Nat) (did : String) (sessionId : String) (now : Timestamp)
    (data : List (String × List Item)) (st : ServerState) : UploadLoopState :=
  ⟨st, initialUploadLog uid did sessionId now data, {}⟩

/-- The value of a completed `POST /upload` call: final Record Store, final
session document, and the per-item outcome report. -/
structure UploadOutcome where
  store : ServerState
  log : SyncLog
  results : UploadResults
  deriving Repr, DecidableEq

/-- The whole `POST /upload` handler on the happy path (no orchestrator-level
exception): create the session, run the loop, then finalize with
`status = failed.length > 0 ? 'partial' : 'completed'` via `markCompleted`. -/
def upload (uid : Nat) (did : String) (sessionId : String) (now : Timestamp)
    (dataTypes : List String) (data : List (String × List Item))
    (st : ServerState) : UploadOutcome :=
  let final := uploadLoop uid did now dataTypes data
    (initialUploadState uid did sessionId now data st)
  let status := if final.results.failed.length > 0 then "partial" else "completed"
  ⟨final.store, final.log.markCompleted status now, final.results⟩

/-! ## Download orchestrator (`POST /download`) -/

/-- Insert a stored activity into a list sorted by `updatedAt` descending. -/
def insertActByUpdatedDesc (x : StoredActivity) : List StoredActivity → List StoredActivity
  | [] => [x]
  | y :: ys => if y.updatedAt < x.updatedAt then x :: y :: ys else y :: insertActByUpdatedDesc x ys

/-- Mongo `.sort({ updatedAt: -1 })` on activities, as an insertion sort. -/
def sortActsByUpdatedDesc : List StoredActivity → List StoredActivity
  | [] => []
  | x :: xs => insertActByUpdatedDesc x (sortActsByUpdatedDesc xs)

/-- Insert a stored diagnosis into a list sorted by `updatedAt` descending. -/
def insertDiagByUpdatedDesc (x : StoredDiagnosis) : List StoredDiagnosis → List StoredDiagnosis
  | [] => [x]
  | y :: ys => if y.updatedAt < x.updatedAt then x :: y :: ys else y :: insertDiagByUpdatedDesc x ys

/-- Mongo `.sort({ updatedAt: -1 })` on diagnoses, as an insertion sort. -/
def sortDiagsByUpdatedDesc : List StoredDiagnosis → List StoredDiagnosis
  | [] => []
  | x :: xs => insertDiagByUpdatedDesc x (sortDiagsByUpdatedDesc xs)

/-- The download filter for activities: `{userId, updatedAt: {$gt: lastSync},
syncStatus: 'synced'}`. -/
def activityDownloadFilter (uid : Nat) (lastSync : Timestamp) (a : StoredActivity) : Bool :=
  a.userId == uid && lastSync < a.updatedAt && a.syncStatus == "synced"

/-- The download filter for diagnoses: `{userId, updatedAt: {$gt: lastSync},
syncStatus: 'synced'}`. -/
def diagnosisDownloadFilter (uid : Nat) (lastSync : Timestamp) (d : StoredDiagnosis) : Bool :=
  d.userId == uid && lastSync < d.updatedAt && d.syncStatus == "synced"

/-- The `case 'activities'` fetch of `POST /download`: filter, sort by
`updatedAt` descending, `.limit(1000)`. -/
def downloadActivities (uid : Nat) (lastSync : Timestamp) (st : ServerState) : List StoredActivity :=
  (sortActsByUpdatedDesc (st.activities.filter (activityDownloadFilter uid lastSync))).take 1000

/-- The `case 'diagnoses'` fetch of `POST /download`: filter, sort by
`updatedAt` descending, `.limit(500)`. -/
def downloadDiagnoses (uid : Nat) (lastSync : Timestamp) (st : ServerState) : List StoredDiagnosis :=
  (sortDiagsByUpdatedDesc (st.diagnoses.filter (diagnosisDownloadFilter uid lastSync))).take 500

/-- A value of the download response's `data` object: an array of
activities, an array of diagnoses, or the single user-profile document. -/
inductive DownloadVal where
  | acts (l : List StoredActivity)
  | diags (l : List StoredDiagnosis)
  | profile (u : UserDoc)
  deriving Repr, DecidableEq

/-- Contribution of one `data` value to the download's `totalItems`
reducer: `Array.isArray(items) ? items.length : (items ? 1 : 0)`. -/
def DownloadVal.count : DownloadVal → Nat
  | .acts l => l.length
  | .diags l => l.length
  | .profile _ => 1

/-- Assignment `data[k] = v` on the JS `data` object, modelled on an
association list: replace the binding if the key exists, else append. -/
def setKey (data : List (String × DownloadVal)) (k : String) (v : DownloadVal) :
    List (String × DownloadVal) :=
  if data.any (fun kv => kv.1 == k) then
    data.map (fun kv => if kv.1 == k then (k, v) else kv)
  else data ++ [(k, v)]

/-- Lookup in the assembled download `data` object. -/
def lookupVal (data : List (String × DownloadVal)) (k : String) : Option DownloadVal :=
  (data.find? (fun kv => kv.1 == k)).map (fun kv => kv.2)

/-- One iteration of the download fetch loop: `switch (dataType)` assigning
`data.activities`, `data.diagnoses`, or `data.user_profile` (the latter only
when the profile's `updatedAt` beats the watermark); unknown types only log
a warning. -/
def downloadFetchStep (uid : Nat) (lastSync : Timestamp) (st : ServerState)
    (data : List (String × DownloadVal)) (dataType : String) : List (String × DownloadVal) :=
  match dataType with
  | "activities" => setKey data "activities" (.acts (downloadActivities uid lastSync st))
  | "diagnoses" => setKey data "diagnoses" (.diags (downloadDiagnoses uid lastSync st))
  | "user_profile" =>
      if lastSync < st.user.updatedAt then setKey data "user_profile" (.profile st.user)
      else data
  | _ => data

/-- The download fetch loop over the requested data types. -/
def downloadData (uid : Nat) (lastSync : Timestamp) (st : ServerState)
    (dataTypes : List String) : List (String × DownloadVal) :=
  dataTypes.foldl (downloadFetchStep uid lastSync st) []

/-- `Object.values(data).reduce(...)`: the aggregate item count of the
assembled download `data` object. -/
def downloadTotalItems (data : List (String × DownloadVal)) : Nat :=
  data.foldl (fun sum kv => sum + kv.2.count) 0

/-- The session document created at the start of `POST /download` (no
`progress` supplied, so every counter keeps its schema default `0`), after
its first `save()`. -/
def initialDownloadLog (uid : Nat) (did : String) (sessionId : String) (now : Timestamp) : SyncLog :=
  presave
    { userId := uid
      deviceId := did
      sessionId := sessionId
      status := "in_progress"
      startedAt := now }

/-- The value of a completed `POST /download` call. -/
structure DownloadOutcome where
  log : SyncLog
  data : List (String × DownloadVal)
  totalItems : Nat
  deriving Repr, DecidableEq

/-- The whole `POST /download` handler on the happy path: create the session,
resolve the watermark (`lastSyncTimestamp ? new Date(lastSyncTimestamp) :
new Date(0)`), fetch each requested type, then
`updateProgress(totalItems, totalItems, 0)` and `markCompleted('completed')`. -/
def download (uid : Nat) (did : String) (sessionId : String) (now : Timestamp)
    (dataTypes : List String) (lastSyncTimestamp : Option Timestamp)
    (st : ServerState) : DownloadOutcome :=
  let log0 := initialDownloadLog uid did sessionId now
  let lastSync := lastSyncTimestamp.getD 0
  let data := downloadData uid lastSync st dataTypes
  let total := downloadTotalItems data
  let log1 := log0.updateProgress total total 0
  ⟨log1.markCompleted "completed" now, data, total⟩

/-! ## Conflict review API (`GET /conflicts`, `POST /resolve-conflict`) -/

/-- The `resolution` enum of the conflict sub-schema, validated by Mongoose
on `save()`. -/
def resolutionEnum : List String :=
  ["server_wins", "client_wins", "merge", "manual_review", "skip"]

/-- The flattened unresolved-conflict listing of `GET /conflicts` for one
user and device (pagination over sessions elided to a full scan, which only
enlarges the listing): from every owned session, the conflict entries whose
`resolution` is still `manual_review`, tagged with the owning session. -/
def unresolvedConflictListing (logs : List SyncLog) (uid : Nat) (did : String) :
    List (String × ConflictEntry) :=
  (logs.filter (fun l => l.userId == uid && l.deviceId == did &&
      l.conflicts.any (fun c => c.resolution == "manual_review"))).foldl
    (fun acc l =>
      acc ++ (l.conflicts.filter (fun c => c.resolution == "manual_review")).map
        (fun c => (l.sessionId, c)))
    []

/-- The mutation `POST /resolve-conflict` applies to the found conflict
entry: set `resolution`, stamp `resolvedAt`/`resolvedBy`, and copy
`mergedData` into `mergedVersion` when supplied. -/
def applyResolution (resolution : String) (now : Timestamp) (resolver : Nat)
    (mergedData : Option Nat) (c : ConflictEntry) : ConflictEntry :=
  { c with
    resolution := resolution
    resolvedAt := some now
    resolvedBy := some resolver
    mergedVersion := match mergedData with
      | some v => some v
      | none => c.mergedVersion }

/-- The core of `POST /resolve-conflict` on the session document found by
`(syncId, userId, deviceId)`: find the first conflict with the given
`itemId` (404 → `none` when absent), mutate it, and `save()` — Mongoose
rejects the save (→ `none`) when the new `resolution` is outside the
sub-schema enum. -/
def resolveConflict (log : SyncLog) (conflictItemId : String) (resolution : String)
    (mergedData : Option Nat) (now : Timestamp) (resolver : Nat) : Option SyncLog :=
  match log.conflicts.find? (fun c => c.itemId == conflictItemId) with
  | none => none
  | some _ =>
      if resolution ∈ resolutionEnum then
        some (presave
          { log with conflicts :=
              (updateFirstWith (fun c => c.itemId == conflictItemId)
                (applyResolution resolution now resolver mergedData) log.conflicts) })
      else none

/-! ## Spec-side characterizations and proof-side definitions -/

/-- Modelled from the spec's words (upload contract, §4.1): the sum of the
per-type record counts **for the supplied set of data types** — to be
compared with `totalItemCount`, which the source computes over all of
`data`'s values. -/
def specSuppliedTotalItems (dataTypes : List String) (data : List (String × List Item)) : Nat :=
  dataTypes.foldl (fun sum dt => sum + ((lookupData data dt).getD []).length) 0

/-- The flattened sequence of (data type, record) pairs the upload loop
visits: for each supplied data type in order, the records bound to it in
`data`, in order. -/
def uploadSequence (data : List (String × List Item)) : List String → List (String × Item)
  | [] => []
  | dt :: dts =>
      ((lookupData data dt).getD []).map (fun it => (dt, it)) ++ uploadSequence data dts

/-- Processing one (data type, record) pair of the flattened upload
sequence. -/
def uploadPairStep (uid : Nat) (did : String) (now : Timestamp)
    (s : UploadLoopState) (p : String × Item) : UploadLoopState :=
  uploadItemStep uid did now p.1 p.2 s

/-- The progress invariant maintained by the session ledger: the processed
counter splits into successes, failures and skips (the sync routes never
skip, so that counter stays `0`), and the percentage always reflects the
`Math.round` formula, defaulting to `0` for an empty batch. -/
def progressOk (log : SyncLog) : Prop :=
  log.progress.processedItems =
    log.progress.successfulItems + log.progress.failedItems + log.progress.skippedItems ∧
  log.progress.skippedItems = 0 ∧
  (0 < log.progress.totalItems →
    log.progress.percentage = roundPct log.progress.processedItems log.progress.totalItems) ∧
  (log.progress.totalItems = 0 → log.progress.percentage = 0)

instance (log : SyncLog) : Decidable (progressOk log) := by
  unfold progressOk; infer_instance

/-! ## Concrete fixtures for witnesses and counterexamples -/

/-- A template client item for concrete scenarios. -/
def baseItem : Item :=
  { itemId := "i1"
    sessionId := "s1"
    activityType := "app_launch"
    timestamp := 100
    patientId := some "p1"
    createdAt := 50
    lastModified := 200
    payload := 7
    firstName := none
    lastName := none
    facility := none
    state := none
    contactInfo := none }

/-- A template user profile document for concrete scenarios. -/
def baseUser : UserDoc :=
  { firstName := "A"
    lastName := "B"
    facility := "F"
    state := "S"
    contactInfo := "C"
    updatedAt := 10 }

/-- An empty Record Store for concrete scenarios. -/
def emptyStore : ServerState := { activities := [], diagnoses := [], user := baseUser }

/-- A stored diagnosis matching `baseItem`'s lookup key with a newer
`lastModified` (300 > 200), so that uploading `baseItem` conflicts. -/
def newerStoredDiagnosis : StoredDiagnosis :=
  { userId := 1
    deviceId := "d1"
    sessionId := "s1"
    patientId := some "p1"
    createdAt := 50
    lastModified := 300
    payload := 9
    syncStatus := "synced"
    syncedAt := none
    updatedAt := 60 }

/-- A Record Store holding only `newerStoredDiagnosis`. -/
def conflictStore : ServerState :=
  { activities := [], diagnoses := [newerStoredDiagnosis], user := baseUser }

/-- A stored diagnosis matching `baseItem`'s lookup key with an older
`lastModified` (100 < 200), so that uploading `baseItem` overwrites it. -/
def olderStoredDiagnosis : StoredDiagnosis := { newerStoredDiagnosis with lastModified := 100 }

/-- A Record Store holding only `olderStoredDiagnosis`. -/
def olderDiagStore : ServerState :=
  { activities := [], diagnoses := [olderStoredDiagnosis], user := baseUser }

/-- A stored diagnosis matching `baseItem`'s lookup key with the same
`lastModified` (200), the idempotent no-op case. -/
def equalStoredDiagnosis : StoredDiagnosis := { newerStoredDiagnosis with lastModified := 200 }

/-- A Record Store holding only `equalStoredDiagnosis`. -/
def equalDiagStore : ServerState :=
  { activities := [], diagnoses := [equalStoredDiagnosis], user := baseUser }

/-- A concrete upload-loop state over a given store, as at the start of an
upload call with an empty `data` mapping. -/
def loopState0 (st : ServerState) : UploadLoopState :=
  initialUploadState 1 "d1" "sess" 500 [] st

/-- A stored activity owned by user 1, updated at 50, synced — visible to a
download with watermark below 50. -/
def storedActivity1 : StoredActivity :=
  { userId := 1
    deviceId := "d1"
    sessionId := "s1"
    activityType := "app_launch"
    timestamp := 5
    payload := 0
    syncStatus := "synced"
    syncedAt := none
    updatedAt := 50 }

/-- A Record Store holding only `storedActivity1`. -/
def oneActivityStore : ServerState :=
  { activities := [storedActivity1], diagnoses := [], user := baseUser }

/-- The five-item upload batch of the partial-failure scenario: items 1-2
are activities, item 3 belongs to `preferences` (accepted by request
validation but unsupported by the item processor), items 4-5 are profile
records. -/
def c3Data : List (String × List Item) :=
  [("activities", [{ baseItem with itemId := "i1" }, { baseItem with itemId := "i2" }]),
   ("preferences", [{ baseItem with itemId := "i3" }]),
   ("user_profile", [{ baseItem with itemId := "i4", firstName := some "N" },
                     { baseItem with itemId := "i5" }])]

/-- The data-type list of the partial-failure scenario. -/
def c3DataTypes : List String := ["activities", "preferences", "user_profile"]

/-- An upload `data` mapping holding records under a key (`diagnoses`) that
is not in the supplied data-type list `["activities"]`. -/
def extraKeyData : List (String × List Item) :=
  [("activities", [{ baseItem with itemId := "a1" }]),
   ("diagnoses", [{ baseItem with itemId := "d1" }, { baseItem with itemId := "d2" }])]

/-- A session holding a single unresolved conflict, as `addConflict` leaves
it. -/
def oneConflictLog : SyncLog :=
  { userId := 1
    deviceId := "d1"
    sessionId := "sess"
    conflicts := [{ itemId := "i1"
                    dataType := "diagnoses"
                    conflictType := "concurrent_modification" }] }

/-- `oneConflictLog` after its conflict has been resolved to the terminal
value `server_wins`. -/
def resolvedOnceLog : SyncLog :=
  (resolveConflict oneConflictLog "i1" "server_wins" none 10 1).getD oneConflictLog

/-! ## Helper lemmas about the session ledger -/

theorem presave_status (log : SyncLog) : (presave log).status = log.status := by
  unfold presave; split <;> rfl

theorem presave_errors (log : SyncLog) : (presave log).errors = log.errors := by
  unfold presave; split <;> rfl

theorem presave_conflicts (log : SyncLog) : (presave log).conflicts = log.conflicts := by
  unfold presave; split <;> rfl

theorem presave_totalItems (log : SyncLog) :
    (presave log).progress.totalItems = log.progress.totalItems := by
  unfold presave; split <;> rfl

theorem presave_processedItems (log : SyncLog) :
    (presave log).progress.processedItems = log.progress.processedItems := by
  unfold presave; split <;> rfl

theorem presave_successfulItems (log : SyncLog) :
    (presave log).progress.successfulItems = log.progress.successfulItems := by
  unfold presave; split <;> rfl

theorem presave_failedItems (log : SyncLog) :
    (presave log).progress.failedItems = log.progress.failedItems := by
  unfold presave; split <;> rfl

theorem presave_skippedItems (log : SyncLog) :
    (presave log).progress.skippedItems = log.progress.skippedItems := by
  unfold presave; split <;> rfl

theorem markCompleted_status (log : SyncLog) (status : String) (now : Timestamp) :
    (log.markCompleted status now).status = status := by
  unfold SyncLog.markCompleted; rw [presave_status]

theorem markCompleted_progress (log : SyncLog) (status : String) (now : Timestamp)
    (h : progressOk log) : (log.markCompleted status now).progress = log.progress := by
  unfold SyncLog.markCompleted presave
  rcases h with ⟨-, -, hpos, -⟩
  split
  · next hlt =>
      simp only at hlt ⊢
      have := hpos hlt
      cases log with
      | mk _ _ _ _ progress _ _ _ _ => cases progress; simp_all
  · rfl

theorem markCompleted_errors (log : SyncLog) (status : String) (now : Timestamp) :
    (log.markCompleted status now).errors = log.errors := by
  unfold SyncLog.markCompleted; rw [presave_errors]

theorem markCompleted_results_agnostic (log : SyncLog) (status : String) (now : Timestamp) :
    (log.markCompleted status now).progress.totalItems = log.progress.totalItems := by
  unfold SyncLog.markCompleted; rw [presave_totalItems]

theorem updateProgress_counters (log : SyncLog) (p s f : Nat) :
    (log.updateProgress p s f).progress.processedItems = p ∧
    (log.updateProgress p s f).progress.successfulItems = s ∧
    (log.updateProgress p s f).progress.failedItems = f ∧
    (log.updateProgress p s f).progress.skippedItems = log.progress.skippedItems ∧
    (log.updateProgress p s f).progress.totalItems = log.progress.totalItems := by
  unfold SyncLog.updateProgress
  refine ⟨?_, ?_, ?_, ?_, ?_⟩ <;>
    simp [presave_processedItems, presave_successfulItems, presave_failedItems,
      presave_skippedItems, presave_totalItems]

theorem addError_errors (log : SyncLog) (code message severity : String)
    (dataType itemId : Option String) :
    (log.addError code message severity dataType itemId).errors =
      log.errors ++ [{ code := code
                       message := message
                       severity := severity
                       dataType := dataType
                       itemId := itemId }] := by
  unfold SyncLog.addError; rw [presave_errors]

theorem addError_progress (log : SyncLog) (code message severity : String)
    (dataType itemId : Option String) :
    (log.addError code message severity dataType itemId).progress.totalItems
        = log.progress.totalItems ∧
    (log.addError code message severity dataType itemId).progress.processedItems
        = log.progress.processedItems ∧
    (log.addError code message severity dataType itemId).progress.successfulItems
        = log.progress.successfulItems ∧
    (log.addError code message severity dataType itemId).progress.failedItems
        = log.progress.failedItems ∧
    (log.addError code message severity dataType itemId).progress.skippedItems
        = log.progress.skippedItems := by
  unfold SyncLog.addError
  exact ⟨presave_totalItems _, presave_processedItems _, presave_successfulItems _,
    presave_failedItems _, presave_skippedItems _⟩

theorem addError_status (log : SyncLog) (code message severity : String)
    (dataType itemId : Option String) :
    (log.addError code message severity dataType itemId).status = log.status := by
  unfold SyncLog.addError; rw [presave_status]

theorem addConflict_conflicts (log : SyncLog) (itemId dataType conflictType : String)
    (localVersion : Item) (serverVersion : StoredDiagnosis) :
    (log.addConflict itemId dataType conflictType localVersion serverVersion).conflicts =
      log.conflicts ++ [{ itemId := itemId
                          dataType := dataType
                          conflictType := conflictType
                          localVersion := some localVersion
                          serverVersion := some serverVersion }] := by
  unfold SyncLog.addConflict; rw [presave_conflicts]

theorem addConflict_progress (log : SyncLog) (itemId dataType conflictType : String)
    (localVersion : Item) (serverVersion : StoredDiagnosis) :
    (log.addConflict itemId dataType conflictType localVersion serverVersion).progress.totalItems
        = log.progress.totalItems ∧
    (log.addConflict itemId dataType conflictType localVersion serverVersion).progress.processedItems
        = log.progress.processedItems ∧
    (log.addConflict itemId dataType conflictType localVersion serverVersion).progress.successfulItems
        = log.progress.successfulItems ∧
    (log.addConflict itemId dataType conflictType localVersion serverVersion).progress.failedItems
        = log.progress.failedItems ∧
    (log.addConflict itemId dataType conflictType localVersion serverVersion).progress.skippedItems
        = log.progress.skippedItems := by
  unfold SyncLog.addConflict
  exact ⟨presave_totalItems _, presave_processedItems _, presave_successfulItems _,
    presave_failedItems _, presave_skippedItems _⟩

theorem addConflict_status (log : SyncLog) (itemId dataType conflictType : String)
    (localVersion : Item) (serverVersion : StoredDiagnosis) :
    (log.addConflict itemId dataType conflictType localVersion serverVersion).status
      = log.status := by
  unfold SyncLog.addConflict; rw [presave_status]

/-! ## Helper lemmas about the upload loop -/

theorem uploadItemStep_totalItems (uid : Nat) (did : String) (now : Timestamp)
    (dataType : String) (item : Item) (s : UploadLoopState) :
    (uploadItemStep uid did now dataType item s).log.progress.totalItems
      = s.log.progress.totalItems := by
  unfold uploadItemStep
  cases processItem uid did now dataType item s.store with
  | saved st doc => exact (updateProgress_counters _ _ _ _).2.2.2.2
  | conflictDetected server => exact (addConflict_progress _ _ _ _ _ _).1
  | errored msg => exact (addError_progress _ _ _ _ _ _).1

theorem uploadItemStep_status (uid : Nat) (did : String) (now : Timestamp)
    (dataType : String) (item : Item) (s : UploadLoopState) :
    (uploadItemStep uid did now dataType item s).log.status = s.log.status := by
  unfold uploadItemStep
  cases processItem uid did now dataType item s.store with
  | saved st doc =>
      show (SyncLog.updateProgress _ _ _ _).status = _
      unfold SyncLog.updateProgress; rw [presave_status]
  | conflictDetected server => exact addConflict_status _ _ _ _ _ _
  | errored msg => exact addError_status _ _ _ _ _ _

theorem uploadLoop_totalItems (uid : Nat) (did : String) (now : Timestamp)
    (dataTypes : List String) (data : List (String × List Item)) (s : UploadLoopState) :
    (uploadLoop uid did now dataTypes data s).log.progress.totalItems
      = s.log.progress.totalItems := by
  induction dataTypes generalizing s with
  | nil => rfl
  | cons dt dts ih =>
      show (uploadLoop uid did now dts data (uploadDataTypeStep uid did now data s dt)).log.progress.totalItems = _
      rw [ih]
      unfold uploadDataTypeStep
      cases lookupData data dt with
      | none => rfl
      | some items =>
          show (items.foldl (fun acc it => uploadItemStep uid did now dt it acc) s).log.progress.totalItems = _
          induction items generalizing s with
          | nil => rfl
          | cons it its ih2 =>
              show (its.foldl _ (uploadItemStep uid did now dt it s)).log.progress.totalItems = _
              rw [ih2, uploadItemStep_totalItems]

theorem initialUploadLog_totalItems (uid : Nat) (did sid : String) (now : Timestamp)
    (data : List (String × List Item)) :
    (initialUploadLog uid did sid now data).progress.totalItems = totalItemCount data := by
  unfold initialUploadLog; rw [presave_totalItems]

theorem uploadDataTypeStep_eq_foldl_pairs (uid : Nat) (did : String) (now : Timestamp)
    (data : List (String × List Item)) (s : UploadLoopState) (dt : String) :
    uploadDataTypeStep uid did now data s dt =
      (((lookupData data dt).getD []).map (fun it => (dt, it))).foldl
        (uploadPairStep uid did now) s := by
  unfold uploadDataTypeStep
  cases lookupData data dt with
  | none => rfl
  | some items =>
      show items.foldl (fun acc it => uploadItemStep uid did now dt it acc) s = _
      rw [List.foldl_map]
      rfl

theorem uploadLoop_eq_foldl_uploadSequence (uid : Nat) (did : String) (now : Timestamp)
    (dataTypes : List String) (data : List (String × List Item)) (s : UploadLoopState) :
    uploadLoop uid did now dataTypes data s =
      (uploadSequence data dataTypes).foldl (uploadPairStep uid did now) s := by
  induction dataTypes generalizing s with
  | nil => rfl
  | cons dt dts ih =>
      show uploadLoop uid did now dts data (uploadDataTypeStep uid did now data s dt) = _
      rw [ih, uploadDataTypeStep_eq_foldl_pairs]
      show _ = (_ ++ uploadSequence data dts).foldl _ s
      rw [List.foldl_append]

/-- C3: for every upload call whose per-item loop runs to exhaustion
without an orchestrator-level exception, the final session status is
`completed` when no item failed and `partial` otherwise; and the concrete
five-item batch whose third item carries the unsupported data type
`preferences` ends with status `partial`, `failedItems = 1`,
`successfulItems = 4`, and exactly one error entry referencing item 3. -/
theorem upload_final_status_partial_iff_failures :
    (∀ (uid : Nat) (did sid : String) (now : Timestamp) (dataTypes : List String)
        (data : List (String × List Item)) (st : ServerState),
      (upload uid did sid now dataTypes data st).log.status =
        (if (upload uid did sid now dataTypes data st).results.failed.length = 0
         then "completed" else "partial")) ∧
    (upload 1 "d1" "sess" 500 c3DataTypes c3Data emptyStore).log.status = "partial" ∧
    (upload 1 "d1" "sess" 500 c3DataTypes c3Data emptyStore).log.progress.failedItems = 1 ∧
    (upload 1 "d1" "sess" 500 c3DataTypes c3Data emptyStore).log.progress.successfulItems = 4 ∧
    (upload 1 "d1" "sess" 500 c3DataTypes c3Data emptyStore).log.errors =
      [{ code := "ITEM_PROCESSING_ERROR"
         message := "Unsupported data type: preferences"
         severity := "medium"
         dataType := some "preferences"
         itemId := some "i3" }] := by
  refine ⟨?_, by decide, by decide, by decide, by decide⟩
  intro uid did sid now dataTypes data st
  show ((uploadLoop uid did now dataTypes data
      (initialUploadState uid did sid now data st)).log.markCompleted
        (if (uploadLoop uid did now dataTypes data
          (initialUploadState uid did sid now data st)).results.failed.length > 0
         then "partial" else "completed") now).status =
    (if (uploadLoop uid did now dataTypes data
      (initialUploadState uid did sid now data st)).results.failed.length = 0
     then "completed" else "partial")
  rw [markCompleted_status]
  rcases Nat.eq_zero_or_pos
    (uploadLoop uid did now dataTypes data
      (initialUploadState uid did sid now data st)).results.failed.length with h | h
  · rw [h]; rfl
  · rw [if_pos h, if_neg (Nat.pos_iff_ne_zero.mp h)]

/-- C6 counterexample: with supplied data types `["activities"]` but a
`data` mapping that also binds two records under the key `diagnoses`, the
session is created with `progress.totalItems = 3` (the source sums over all
of `data`'s values), while the sum of the record counts for the supplied
set of data types is `1`. -/
theorem upload_totalItems_counts_unsupplied_keys :
    (upload 1 "d1" "sess" 500 ["activities"] extraKeyData emptyStore).log.progress.totalItems = 3 ∧
    specSuppliedTotalItems ["activities"] extraKeyData = 1 ∧
    (upload 1 "d1" "sess" 500 ["activities"] extraKeyData emptyStore).log.progress.totalItems ≠
      specSuppliedTotalItems ["activities"] extraKeyData := by
  refine ⟨by decide, by decide, by decide⟩

/-- C6 (amended): for every upload call, the session is created with
`progress.totalItems` equal to the sum of the lengths of ALL array-valued
entries of the `data` mapping — including entries whose key is not among
the supplied data types — and the per-item loop processes exactly the
records of the data types in the supplied set that are present in `data`,
in order (the flattened sequence `uploadSequence`). -/
theorem upload_totalItems_and_processed_sequence (uid : Nat) (did sid : String)
    (now : Timestamp) (dataTypes : List String) (data : List (String × List Item))
    (st : ServerState) :
    (upload uid did sid now dataTypes data st).log.progress.totalItems = totalItemCount data ∧
    uploadLoop uid did now dataTypes data (initialUploadState uid did sid now data st) =
      (uploadSequence data dataTypes).foldl (uploadPairStep uid did now)
        (initialUploadState uid did sid now data st) := by
  constructor
  · show ((uploadLoop uid did now dataTypes data
        (initialUploadState uid did sid now data st)).log.markCompleted _ now).progress.totalItems = _
    rw [markCompleted_results_agnostic, uploadLoop_totalItems]
    exact initialUploadLog_totalItems uid did sid now data
  · exact uploadLoop_eq_foldl_uploadSequence uid did now dataTypes data _

/-! ## Helper lemmas for the progress invariant -/

theorem roundPct_self (t : Nat) : roundPct 0 t = 0 := by
  unfold roundPct
  rcases Nat.eq_zero_or_pos t with h | h
  · rw [h]
  · exact Nat.div_eq_of_lt (by omega)

theorem progressOk_presave_of (log : SyncLog)
    (h1 : log.progress.processedItems =
      log.progress.successfulItems + log.progress.failedItems + log.progress.skippedItems)
    (h2 : log.progress.skippedItems = 0)
    (h3 : log.progress.totalItems = 0 → log.progress.percentage = 0) :
    progressOk (presave log) := by
  unfold presave progressOk
  split
  · next hlt =>
      refine ⟨h1, h2, fun _ => rfl, fun h0 => ?_⟩
      exact absurd hlt (by simp only at h0 ⊢; omega)
  · next hge => exact ⟨h1, h2, fun hc => absurd hc hge, h3⟩

theorem progressOk_initialUploadLog (uid : Nat) (did sid : String) (now : Timestamp)
    (data : List (String × List Item)) :
    progressOk (initialUploadLog uid did sid now data) := by
  unfold initialUploadLog
  exact progressOk_presave_of _ rfl rfl (fun _ => rfl)

theorem progressOk_updateProgress (log : SyncLog) (su f : Nat) (h : progressOk log) :
    progressOk (log.updateProgress (su + f) su f) := by
  rcases h with ⟨-, h2, -, h4⟩
  unfold SyncLog.updateProgress
  refine progressOk_presave_of _ ?_ ?_ ?_
  · simp [h2]
  · simp [h2]
  · exact h4

theorem progressOk_addError (log : SyncLog) (code message severity : String)
    (dataType itemId : Option String) (h : progressOk log) :
    progressOk (log.addError code message severity dataType itemId) := by
  rcases h with ⟨h1, h2, -, h4⟩
  unfold SyncLog.addError
  exact progressOk_presave_of _ h1 h2 h4

theorem progressOk_addConflict (log : SyncLog) (itemId dataType conflictType : String)
    (localVersion : Item) (serverVersion : StoredDiagnosis) (h : progressOk log) :
    progressOk (log.addConflict itemId dataType conflictType localVersion serverVersion) := by
  rcases h with ⟨h1, h2, -, h4⟩
  unfold SyncLog.addConflict
  exact progressOk_presave_of _ h1 h2 h4

theorem progressOk_markCompleted (log : SyncLog) (status : String) (now : Timestamp)
    (h : progressOk log) : progressOk (log.markCompleted status now) := by
  rcases h with ⟨h1, h2, -, h4⟩
  unfold SyncLog.markCompleted
  exact progressOk_presave_of _ h1 h2 h4

theorem progressOk_uploadItemStep (uid : Nat) (did : String) (now : Timestamp)
    (dataType : String) (item : Item) (s : UploadLoopState) (h : progressOk s.log) :
    progressOk (uploadItemStep uid did now dataType item s).log := by
  unfold uploadItemStep
  cases processItem uid did now dataType item s.store with
  | saved st doc => exact progressOk_updateProgress _ _ _ h
  | conflictDetected server => exact progressOk_addConflict _ _ _ _ _ _ h
  | errored msg => exact progressOk_addError _ _ _ _ _ _ h

theorem progressOk_foldl_pairs (uid : Nat) (did : String) (now : Timestamp)
    (pairs : List (String × Item)) (s : UploadLoopState) (h : progressOk s.log) :
    progressOk ((pairs.foldl (uploadPairStep uid did now) s).log) := by
  induction pairs generalizing s with
  | nil => exact h
  | cons p ps ih => exact ih _ (progressOk_uploadItemStep uid did now p.1 p.2 s h)

/-- C7: starting from the session an upload call creates, after any sequence
of item-processing steps (hence at every moment of the per-item loop), and
also on the finalized session of a full upload call, the progress counters
satisfy `processedItems = successfulItems + failedItems + skippedItems` and
`percentage = Math.round(processedItems / totalItems * 100)` whenever
`totalItems > 0`, staying `0` otherwise.  Counters are naturals in this
model, so nonnegativity is by construction. -/
theorem upload_progress_invariant (uid : Nat) (did sid : String) (now : Timestamp)
    (data : List (String × List Item)) (st : ServerState) :
    (∀ pairs : List (String × Item),
      (pairs.foldl (uploadPairStep uid did now)
          (initialUploadState uid did sid now data st)).log.progress.processedItems =
        (pairs.foldl (uploadPairStep uid did now)
          (initialUploadState uid did sid now data st)).log.progress.successfulItems +
        (pairs.foldl (uploadPairStep uid did now)
          (initialUploadState uid did sid now data st)).log.progress.failedItems +
        (pairs.foldl (uploadPairStep uid did now)
          (initialUploadState uid did sid now data st)).log.progress.skippedItems ∧
      (0 < (pairs.foldl (uploadPairStep uid did now)
          (initialUploadState uid did sid now data st)).log.progress.totalItems →
        (pairs.foldl (uploadPairStep uid did now)
          (initialUploadState uid did sid now data st)).log.progress.percentage =
          roundPct
            (pairs.foldl (uploadPairStep uid did now)
              (initialUploadState uid did sid now data st)).log.progress.processedItems
            (pairs.foldl (uploadPairStep uid did now)
              (initialUploadState uid did sid now data st)).log.progress.totalItems) ∧
      ((pairs.foldl (uploadPairStep uid did now)
          (initialUploadState uid did sid now data st)).log.progress.totalItems = 0 →
        (pairs.foldl (uploadPairStep uid did now)
          (initialUploadState uid did sid now data st)).log.progress.percentage = 0)) ∧
    (∀ dataTypes : List String,
      (upload uid did sid now dataTypes data st).log.progress.processedItems =
        (upload uid did sid now dataTypes data st).log.progress.successfulItems +
        (upload uid did sid now dataTypes data st).log.progress.failedItems +
        (upload uid did sid now dataTypes data st).log.progress.skippedItems) := by
  constructor
  · intro pairs
    have h := progressOk_foldl_pairs uid did now pairs
      (initialUploadState uid did sid now data st)
      (progressOk_initialUploadLog uid did sid now data)
    exact ⟨h.1, h.2.2.1, h.2.2.2⟩
  · intro dataTypes
    have h0 : progressOk (uploadLoop uid did now dataTypes data
        (initialUploadState uid did sid now data st)).log := by
      rw [uploadLoop_eq_foldl_uploadSequence]
      exact progressOk_foldl_pairs uid did now _ _
        (progressOk_initialUploadLog uid did sid now data)
    have h1 : progressOk (upload uid did sid now dataTypes data st).log :=
      progressOk_markCompleted _ _ _ h0
    exact h1.1

/-- C7 witness: the invariant theorem applied at a concrete input, with the
`0 < totalItems` hypothesis of the percentage clause discharged at the
five-item batch. -/
theorem upload_progress_invariant_witness :
    ([(("activities" : String), baseItem)].foldl (uploadPairStep 1 "d1" 500)
        (initialUploadState 1 "d1" "sess" 500 c3Data emptyStore)).log.progress.percentage =
      roundPct
        ([(("activities" : String), baseItem)].foldl (uploadPairStep 1 "d1" 500)
          (initialUploadState 1 "d1" "sess" 500 c3Data emptyStore)).log.progress.processedItems
        ([(("activities" : String), baseItem)].foldl (uploadPairStep 1 "d1" 500)
          (initialUploadState 1 "d1" "sess" 500 c3Data emptyStore)).log.progress.totalItems := by
  exact (((upload_progress_invariant 1 "d1" "sess" 500 c3Data emptyStore).1
    [(("activities" : String), baseItem)]).2.1) (by decide)

/-! ## Shape lemmas for one upload-loop iteration -/

theorem uploadItemStep_of_saved (uid : Nat) (did : String) (now : Timestamp)
    (dataType : String) (item : Item) (s : UploadLoopState) (st : ServerState)
    (doc : Option SavedDoc)
    (h : processItem uid did now dataType item s.store = .saved st doc) :
    uploadItemStep uid did now dataType item s =
      ⟨st,
       s.log.updateProgress
         ((s.results.successful ++ [({ itemId := item.itemId, dataType := dataType } : SuccessDetail)]).length
           + s.results.failed.length)
         (s.results.successful ++ [({ itemId := item.itemId, dataType := dataType } : SuccessDetail)]).length
         s.results.failed.length,
       { s.results with
         successful := s.results.successful ++ [({ itemId := item.itemId, dataType := dataType } : SuccessDetail)] }⟩ := by
  unfold uploadItemStep
  rw [h]

theorem uploadItemStep_of_conflict (uid : Nat) (did : String) (now : Timestamp)
    (dataType : String) (item : Item) (s : UploadLoopState) (S : StoredDiagnosis)
    (h : processItem uid did now dataType item s.store = .conflictDetected S) :
    uploadItemStep uid did now dataType item s =
      ⟨s.store,
       s.log.addConflict item.itemId dataType "concurrent_modification" item S,
       { s.results with
         conflicts := s.results.conflicts ++ [⟨item.itemId, dataType, "concurrent_modification"⟩] }⟩ := by
  unfold uploadItemStep
  rw [h]

theorem uploadItemStep_of_errored (uid : Nat) (did : String) (now : Timestamp)
    (dataType : String) (item : Item) (s : UploadLoopState) (msg : String)
    (h : processItem uid did now dataType item s.store = .errored msg) :
    uploadItemStep uid did now dataType item s =
      ⟨s.store,
       s.log.addError "ITEM_PROCESSING_ERROR" msg "medium" (some dataType) (some item.itemId),
       { s.results with failed := s.results.failed ++ [⟨item.itemId, dataType, msg⟩] }⟩ := by
  unfold uploadItemStep
  rw [h]

theorem processItem_diagnoses (uid : Nat) (did : String) (now : Timestamp)
    (item : Item) (st : ServerState) :
    processItem uid did now "diagnoses" item st = processDiagnosisItem uid did now item st := rfl

theorem processDiagnosisItem_of_none (uid : Nat) (did : String) (now : Timestamp)
    (item : Item) (st : ServerState)
    (h : st.diagnoses.find? (diagnosisKeyMatch uid did item) = none) :
    processDiagnosisItem uid did now item st =
      .saved { st with diagnoses := st.diagnoses ++ [newDiagnosisDoc uid did now item] }
        (some (.diag (newDiagnosisDoc uid did now item))) := by
  unfold processDiagnosisItem
  rw [h]

theorem processDiagnosisItem_of_newer_incoming (uid : Nat) (did : String) (now : Timestamp)
    (item : Item) (st : ServerState) (S : StoredDiagnosis)
    (h : st.diagnoses.find? (diagnosisKeyMatch uid did item) = some S)
    (hlt : S.lastModified < item.lastModified) :
    processDiagnosisItem uid did now item st =
      .saved { st with diagnoses :=
                 (updateFirst (diagnosisKeyMatch uid did item) (overwriteDiagnosis S now item)
                   st.diagnoses) }
        (some (.diag (overwriteDiagnosis S now item))) := by
  unfold processDiagnosisItem
  rw [h]
  simp only [if_pos hlt]

theorem processDiagnosisItem_of_newer_stored (uid : Nat) (did : String) (now : Timestamp)
    (item : Item) (st : ServerState) (S : StoredDiagnosis)
    (h : st.diagnoses.find? (diagnosisKeyMatch uid did item) = some S)
    (hgt : item.lastModified < S.lastModified) :
    processDiagnosisItem uid did now item st = .conflictDetected S := by
  unfold processDiagnosisItem
  rw [h]
  simp only [if_neg (Nat.lt_asymm hgt), if_pos hgt]

theorem processDiagnosisItem_of_equal (uid : Nat) (did : String) (now : Timestamp)
    (item : Item) (st : ServerState) (S : StoredDiagnosis)
    (h : st.diagnoses.find? (diagnosisKeyMatch uid did item) = some S)
    (heq : S.lastModified = item.lastModified) :
    processDiagnosisItem uid did now item st = .saved st (some (.diag S)) := by
  unfold processDiagnosisItem
  rw [h]
  have h1 : ¬ S.lastModified < item.lastModified := by rw [heq]; exact Nat.lt_irrefl _
  have h2 : ¬ item.lastModified < S.lastModified := by rw [heq]; exact Nat.lt_irrefl _
  simp only [if_neg h1, if_neg h2]

/-- C1: the diagnosis decision table of one upload-loop iteration.  With
incoming item L and the existing-record lookup against stored version S:
no S → L is created (appended to the collection) and the item is counted
successful; `S.lastModified < L.lastModified` → S is overwritten with L's
fields and the item is counted successful; `S.lastModified >
L.lastModified` → a `concurrent_modification` conflict carrying both
payloads (resolution `manual_review`) is appended to the session, the item
is reported as a conflict, and the store is unchanged; equal timestamps →
the store is unchanged and the item is counted successful. -/
theorem diagnosis_upload_conflict_decision (uid : Nat) (did : String) (now : Timestamp)
    (item : Item) (s : UploadLoopState) :
    (s.store.diagnoses.find? (diagnosisKeyMatch uid did item) = none →
      (uploadItemStep uid did now "diagnoses" item s).store.diagnoses =
        s.store.diagnoses ++ [newDiagnosisDoc uid did now item] ∧
      (uploadItemStep uid did now "diagnoses" item s).results.successful =
        s.results.successful ++ [⟨item.itemId, "diagnoses"⟩]) ∧
    (∀ S, s.store.diagnoses.find? (diagnosisKeyMatch uid did item) = some S →
      S.lastModified < item.lastModified →
      (uploadItemStep uid did now "diagnoses" item s).store.diagnoses =
        updateFirst (diagnosisKeyMatch uid did item) (overwriteDiagnosis S now item)
          s.store.diagnoses ∧
      (overwriteDiagnosis S now item).payload = item.payload ∧
      (uploadItemStep uid did now "diagnoses" item s).results.successful =
        s.results.successful ++ [⟨item.itemId, "diagnoses"⟩]) ∧
    (∀ S, s.store.diagnoses.find? (diagnosisKeyMatch uid did item) = some S →
      item.lastModified < S.lastModified →
      (uploadItemStep uid did now "diagnoses" item s).store = s.store ∧
      (uploadItemStep uid did now "diagnoses" item s).log.conflicts =
        s.log.conflicts ++ [{ itemId := item.itemId
                              dataType := "diagnoses"
                              conflictType := "concurrent_modification"
                              localVersion := some item
                              serverVersion := some S }] ∧
      (uploadItemStep uid did now "diagnoses" item s).results.conflicts =
        s.results.conflicts ++ [⟨item.itemId, "diagnoses", "concurrent_modification"⟩] ∧
      (uploadItemStep uid did now "diagnoses" item s).results.successful =
        s.results.successful ∧
      (uploadItemStep uid did now "diagnoses" item s).results.failed = s.results.failed) ∧
    (∀ S, s.store.diagnoses.find? (diagnosisKeyMatch uid did item) = some S →
      S.lastModified = item.lastModified →
      (uploadItemStep uid did now "diagnoses" item s).store = s.store ∧
      (uploadItemStep uid did now "diagnoses" item s).results.successful =
        s.results.successful ++ [⟨item.itemId, "diagnoses"⟩]) := by
  refine ⟨?_, ?_, ?_, ?_⟩
  · intro h
    rw [uploadItemStep_of_saved uid did now "diagnoses" item s _ _
      ((processItem_diagnoses uid did now item s.store).trans
        (processDiagnosisItem_of_none uid did now item s.store h))]
    exact ⟨rfl, rfl⟩
  · intro S h hlt
    rw [uploadItemStep_of_saved uid did now "diagnoses" item s _ _
      ((processItem_diagnoses uid did now item s.store).trans
        (processDiagnosisItem_of_newer_incoming uid did now item s.store S h hlt))]
    exact ⟨rfl, rfl, rfl⟩
  · intro S h hgt
    rw [uploadItemStep_of_conflict uid did now "diagnoses" item s S
      ((processItem_diagnoses uid did now item s.store).trans
        (processDiagnosisItem_of_newer_stored uid did now item s.store S h hgt))]
    refine ⟨rfl, ?_, rfl, rfl, rfl⟩
    exact addConflict_conflicts s.log item.itemId "diagnoses" "concurrent_modification" item S
  · intro S h heq
    rw [uploadItemStep_of_saved uid did now "diagnoses" item s _ _
      ((processItem_diagnoses uid did now item s.store).trans
        (processDiagnosisItem_of_equal uid did now item s.store S h heq))]
    exact ⟨rfl, rfl⟩

/-- C1 witness: the four rows of the decision table exercised on concrete
stores — empty, stale stored copy (100 < 200), fresher stored copy
(300 > 200), and equal timestamps (200 = 200). -/
theorem diagnosis_upload_conflict_decision_witness :
    ((uploadItemStep 1 "d1" 500 "diagnoses" baseItem (loopState0 emptyStore)).store.diagnoses =
      (loopState0 emptyStore).store.diagnoses ++ [newDiagnosisDoc 1 "d1" 500 baseItem]) ∧
    ((uploadItemStep 1 "d1" 500 "diagnoses" baseItem (loopState0 olderDiagStore)).store.diagnoses =
      updateFirst (diagnosisKeyMatch 1 "d1" baseItem)
        (overwriteDiagnosis olderStoredDiagnosis 500 baseItem)
        (loopState0 olderDiagStore).store.diagnoses) ∧
    ((uploadItemStep 1 "d1" 500 "diagnoses" baseItem (loopState0 conflictStore)).log.conflicts =
      (loopState0 conflictStore).log.conflicts ++
        [{ itemId := baseItem.itemId
           dataType := "diagnoses"
           conflictType := "concurrent_modification"
           localVersion := some baseItem
           serverVersion := some newerStoredDiagnosis }]) ∧
    ((uploadItemStep 1 "d1" 500 "diagnoses" baseItem (loopState0 equalDiagStore)).store =
      (loopState0 equalDiagStore).store) := by
  refine ⟨?_, ?_, ?_, ?_⟩
  · exact ((diagnosis_upload_conflict_decision 1 "d1" 500 baseItem
      (loopState0 emptyStore)).1 (by decide)).1
  · exact ((diagnosis_upload_conflict_decision 1 "d1" 500 baseItem
      (loopState0 olderDiagStore)).2.1 olderStoredDiagnosis (by decide) (by decide)).1
  · exact ((diagnosis_upload_conflict_decision 1 "d1" 500 baseItem
      (loopState0 conflictStore)).2.2.1 newerStoredDiagnosis (by decide) (by decide)).2.1
  · exact ((diagnosis_upload_conflict_decision 1 "d1" 500 baseItem
      (loopState0 equalDiagStore)).2.2.2 equalStoredDiagnosis (by decide) (by decide)).1

/-! ## Helper lemmas for the activities branch -/

theorem processItem_activities (uid : Nat) (did : String) (now : Timestamp)
    (item : Item) (st : ServerState) :
    processItem uid did now "activities" item st = processActivityItem uid did now item st := rfl

theorem processActivityItem_of_none (uid : Nat) (did : String) (now : Timestamp)
    (item : Item) (st : ServerState)
    (h : st.activities.find? (activityKeyMatch uid did item) = none) :
    processActivityItem uid did now item st =
      .saved { st with activities := st.activities ++ [newActivityDoc uid did now item] }
        (some (.act (newActivityDoc uid did now item))) := by
  unfold processActivityItem
  rw [h]

theorem processActivityItem_of_some (uid : Nat) (did : String) (now : Timestamp)
    (item : Item) (st : ServerState) (e : StoredActivity)
    (h : st.activities.find? (activityKeyMatch uid did item) = some e) :
    processActivityItem uid did now item st = .saved st (some (.act e)) := by
  unfold processActivityItem
  rw [h]

theorem activityKeyMatch_newActivityDoc (uid : Nat) (did : String) (now : Timestamp)
    (item : Item) : activityKeyMatch uid did item (newActivityDoc uid did now item) = true := by
  simp [activityKeyMatch, newActivityDoc]

/-- C2: uploading the same activity record twice (identical user, device,
session, type, timestamp) yields exactly one stored record.  The second
step leaves the whole store unchanged (the exact-match lookup on (user,
device, session, type, timestamp) finds the record stored by the first
step, so the existing record is returned instead of a new insert) and still
reports the item as successful; starting from a store with no matching
record, two uploads leave exactly one matching record. -/
theorem activity_upload_idempotent (uid : Nat) (did : String) (now now2 : Timestamp)
    (item : Item) (s : UploadLoopState) :
    (uploadItemStep uid did now2 "activities" item
        (uploadItemStep uid did now "activities" item s)).store =
      (uploadItemStep uid did now "activities" item s).store ∧
    (uploadItemStep uid did now2 "activities" item
        (uploadItemStep uid did now "activities" item s)).results.successful =
      (uploadItemStep uid did now "activities" item s).results.successful ++
        [⟨item.itemId, "activities"⟩] ∧
    (uploadItemStep uid did now2 "activities" item
        (uploadItemStep uid did now "activities" item s)).results.failed =
      (uploadItemStep uid did now "activities" item s).results.failed ∧
    (s.store.activities.countP (activityKeyMatch uid did item) = 0 →
      (uploadItemStep uid did now "activities" item s).store.activities =
        s.store.activities ++ [newActivityDoc uid did now item] ∧
      (uploadItemStep uid did now2 "activities" item
          (uploadItemStep uid did now "activities" item s)).store.activities.countP
        (activityKeyMatch uid did item) = 1) := by
  have hkey := activityKeyMatch_newActivityDoc uid did now item
  cases h : s.store.activities.find? (activityKeyMatch uid did item) with
  | none =>
      have e1 := uploadItemStep_of_saved uid did now "activities" item s _ _
        ((processItem_activities uid did now item s.store).trans
          (processActivityItem_of_none uid did now item s.store h))
      have hs1store : (uploadItemStep uid did now "activities" item s).store.activities =
          s.store.activities ++ [newActivityDoc uid did now item] := by rw [e1]
      have hfind2 : (uploadItemStep uid did now "activities" item s).store.activities.find?
          (activityKeyMatch uid did item) = some (newActivityDoc uid did now item) := by
        rw [hs1store, List.find?_append, h, List.find?_cons_of_pos _ hkey]
        rfl
      have e2 := uploadItemStep_of_saved uid did now2 "activities" item
        (uploadItemStep uid did now "activities" item s) _ _
        ((processItem_activities uid did now2 item _).trans
          (processActivityItem_of_some uid did now2 item _ _ hfind2))
      refine ⟨by rw [e2], by rw [e2], by rw [e2], fun cnt0 => ⟨hs1store, ?_⟩⟩
      have : (uploadItemStep uid did now2 "activities" item
          (uploadItemStep uid did now "activities" item s)).store =
          (uploadItemStep uid did now "activities" item s).store := by rw [e2]
      rw [this, hs1store]
      simp [List.countP_append, List.countP_cons, hkey, cnt0]
  | some e =>
      have e1 := uploadItemStep_of_saved uid did now "activities" item s _ _
        ((processItem_activities uid did now item s.store).trans
          (processActivityItem_of_some uid did now item s.store e h))
      have hs1store : (uploadItemStep uid did now "activities" item s).store = s.store := by
        rw [e1]
      have hfind2 : (uploadItemStep uid did now "activities" item s).store.activities.find?
          (activityKeyMatch uid did item) = some e := by rw [hs1store, h]
      have e2 := uploadItemStep_of_saved uid did now2 "activities" item
        (uploadItemStep uid did now "activities" item s) _ _
        ((processItem_activities uid did now2 item _).trans
          (processActivityItem_of_some uid did now2 item _ _ hfind2))
      refine ⟨by rw [e2], by rw [e2], by rw [e2], fun cnt0 => absurd h ?_⟩
      have hall := List.countP_eq_zero.mp cnt0
      rw [List.find?_eq_none.mpr (fun a ha => by simpa using hall a ha)]
      exact fun hc => Option.noConfusion hc

/-- C2 witness: two uploads of `baseItem` as an activity into an empty
store leave exactly one record matching the duplicate-check key, and the
second upload is reported successful. -/
theorem activity_upload_idempotent_witness :
    (uploadItemStep 1 "d1" 600 "activities" baseItem
        (uploadItemStep 1 "d1" 500 "activities" baseItem
          (loopState0 emptyStore))).store.activities.countP
      (activityKeyMatch 1 "d1" baseItem) = 1 ∧
    (uploadItemStep 1 "d1" 600 "activities" baseItem
        (uploadItemStep 1 "d1" 500 "activities" baseItem
          (loopState0 emptyStore))).results.successful =
      (uploadItemStep 1 "d1" 500 "activities" baseItem
        (loopState0 emptyStore)).results.successful ++ [⟨baseItem.itemId, "activities"⟩] := by
  refine ⟨((activity_upload_idempotent 1 "d1" 500 600 baseItem
    (loopState0 emptyStore)).2.2.2 (by decide)).2, ?_⟩
  exact (activity_upload_idempotent 1 "d1" 500 600 baseItem (loopState0 emptyStore)).2.1

/-- C8: per-item failure isolation.  An unsupported data type makes the
item processor throw `Unsupported data type: <name>`; any item-level error
is caught at the item boundary — the store is untouched, the error is
appended to the session's error list with the offending item id and data
type, the item is pushed onto the failed list, the session status is not
changed (in particular not set to `failed`), and the loop continues with
the remaining items from that state. -/
theorem item_failure_isolation (uid : Nat) (did : String) (now : Timestamp) :
    (∀ (dataType : String) (item : Item) (st : ServerState),
      dataType ≠ "activities" → dataType ≠ "diagnoses" → dataType ≠ "user_profile" →
      processItem uid did now dataType item st =
        .errored ("Unsupported data type: " ++ dataType)) ∧
    (∀ (s : UploadLoopState) (dataType : String) (item : Item) (msg : String),
      processItem uid did now dataType item s.store = .errored msg →
      (uploadItemStep uid did now dataType item s).store = s.store ∧
      (uploadItemStep uid did now dataType item s).log.errors =
        s.log.errors ++ [{ code := "ITEM_PROCESSING_ERROR"
                           message := msg
                           severity := "medium"
                           dataType := some dataType
                           itemId := some item.itemId }] ∧
      (uploadItemStep uid did now dataType item s).results.failed =
        s.results.failed ++ [⟨item.itemId, dataType, msg⟩] ∧
      (uploadItemStep uid did now dataType item s).log.status = s.log.status ∧
      (uploadItemStep uid did now dataType item s).results.successful =
        s.results.successful) ∧
    (∀ (s : UploadLoopState) (dataType : String) (item : Item) (items : List Item),
      items.foldl (fun acc it => uploadItemStep uid did now dataType it acc)
        (uploadItemStep uid did now dataType item s) =
      (item :: items).foldl (fun acc it => uploadItemStep uid did now dataType it acc) s) := by
  refine ⟨?_, ?_, ?_⟩
  · intro dataType item st h1 h2 h3
    unfold processItem
    split <;> first | rfl | simp_all
  · intro s dataType item msg h
    rw [uploadItemStep_of_errored uid did now dataType item s msg h]
    refine ⟨rfl, ?_, rfl, ?_, rfl⟩
    · exact addError_errors s.log "ITEM_PROCESSING_ERROR" msg "medium" (some dataType)
        (some item.itemId)
    · exact addError_status s.log "ITEM_PROCESSING_ERROR" msg "medium" (some dataType)
        (some item.itemId)
  · intro s dataType item items
    rfl

/-- C8 witness: the `preferences` data type (accepted by request validation
but unsupported by the item processor) throws for its own item only; on a
concrete state the caught error leaves the session status untouched. -/
theorem item_failure_isolation_witness :
    processItem 1 "d1" 500 "preferences" baseItem emptyStore =
      .errored ("Unsupported data type: " ++ "preferences") ∧
    (uploadItemStep 1 "d1" 500 "preferences" baseItem (loopState0 emptyStore)).log.status =
      (loopState0 emptyStore).log.status := by
  refine ⟨(item_failure_isolation 1 "d1" 500).1 "preferences" baseItem emptyStore
    (by decide) (by decide) (by decide), ?_⟩
  exact ((item_failure_isolation 1 "d1" 500).2.1 (loopState0 emptyStore) "preferences"
    baseItem ("Unsupported data type: " ++ "preferences") (by decide)).2.2.2.1

/-- C10: an item recorded as a diagnosis conflict is counted in none of the
session's progress counters and appears in neither the successful nor the
failed detail lists; consequently the concrete upload whose only item
conflicts finalizes with status `completed` and `processedItems = 0` even
though `totalItems = 1 > 0`. -/
theorem conflict_items_not_counted (uid : Nat) (did : String) (now : Timestamp) :
    (∀ (s : UploadLoopState) (dataType : String) (item : Item) (S : StoredDiagnosis),
      processItem uid did now dataType item s.store = .conflictDetected S →
      (uploadItemStep uid did now dataType item s).results.successful =
        s.results.successful ∧
      (uploadItemStep uid did now dataType item s).results.failed = s.results.failed ∧
      (uploadItemStep uid did now dataType item s).log.progress.processedItems =
        s.log.progress.processedItems ∧
      (uploadItemStep uid did now dataType item s).log.progress.successfulItems =
        s.log.progress.successfulItems ∧
      (uploadItemStep uid did now dataType item s).log.progress.failedItems =
        s.log.progress.failedItems) ∧
    ((upload 1 "d1" "sess" 500 ["diagnoses"] [("diagnoses", [baseItem])] conflictStore).log.status
        = "completed" ∧
     (upload 1 "d1" "sess" 500 ["diagnoses"] [("diagnoses", [baseItem])]
        conflictStore).log.progress.processedItems = 0 ∧
     0 < (upload 1 "d1" "sess" 500 ["diagnoses"] [("diagnoses", [baseItem])]
        conflictStore).log.progress.totalItems ∧
     (upload 1 "d1" "sess" 500 ["diagnoses"] [("diagnoses", [baseItem])]
        conflictStore).results.successful = [] ∧
     (upload 1 "d1" "sess" 500 ["diagnoses"] [("diagnoses", [baseItem])]
        conflictStore).results.failed = [] ∧
     (upload 1 "d1" "sess" 500 ["diagnoses"] [("diagnoses", [baseItem])]
        conflictStore).results.conflicts =
       [⟨baseItem.itemId, "diagnoses", "concurrent_modification"⟩]) := by
  constructor
  · intro s dataType item S h
    rw [uploadItemStep_of_conflict uid did now dataType item s S h]
    have hp := addConflict_progress s.log item.itemId dataType "concurrent_modification" item S
    exact ⟨rfl, rfl, hp.2.1, hp.2.2.1, hp.2.2.2.1⟩
  · refine ⟨by decide, by decide, by decide, by decide, by decide, by decide⟩

/-- C10 witness: the conflict branch exercised on the concrete store whose
diagnosis is fresher than the incoming item. -/
theorem conflict_items_not_counted_witness :
    (uploadItemStep 1 "d1" 500 "diagnoses" baseItem
        (loopState0 conflictStore)).results.successful =
      (loopState0 conflictStore).results.successful ∧
    (uploadItemStep 1 "d1" 500 "diagnoses" baseItem
        (loopState0 conflictStore)).log.progress.processedItems =
      (loopState0 conflictStore).log.progress.processedItems := by
  have h := (conflict_items_not_counted 1 "d1" 500).1 (loopState0 conflictStore) "diagnoses"
    baseItem newerStoredDiagnosis (by decide)
  exact ⟨h.1, h.2.2.1⟩

/-! ## Helper lemmas for the download fetch -/

theorem mem_insertActByUpdatedDesc (x y : StoredActivity) (l : List StoredActivity) :
    y ∈ insertActByUpdatedDesc x l ↔ y = x ∨ y ∈ l := by
  induction l with
  | nil => simp [insertActByUpdatedDesc]
  | cons a as ih =>
      simp only [insertActByUpdatedDesc]
      split
      · simp
      · simp [ih]; tauto

theorem mem_sortActsByUpdatedDesc (y : StoredActivity) (l : List StoredActivity) :
    y ∈ sortActsByUpdatedDesc l ↔ y ∈ l := by
  induction l with
  | nil => simp [sortActsByUpdatedDesc]
  | cons a as ih =>
      simp only [sortActsByUpdatedDesc]
      rw [mem_insertActByUpdatedDesc, ih]
      simp

theorem mem_insertDiagByUpdatedDesc (x y : StoredDiagnosis) (l : List StoredDiagnosis) :
    y ∈ insertDiagByUpdatedDesc x l ↔ y = x ∨ y ∈ l := by
  induction l with
  | nil => simp [insertDiagByUpdatedDesc]
  | cons a as ih =>
      simp only [insertDiagByUpdatedDesc]
      split
      · simp
      · simp [ih]; tauto

theorem mem_sortDiagsByUpdatedDesc (y : StoredDiagnosis) (l : List StoredDiagnosis) :
    y ∈ sortDiagsByUpdatedDesc l ↔ y ∈ l := by
  induction l with
  | nil => simp [sortDiagsByUpdatedDesc]
  | cons a as ih =>
      simp only [sortDiagsByUpdatedDesc]
      rw [mem_insertDiagByUpdatedDesc, ih]
      simp

theorem downloadActivities_spec (uid : Nat) (lastSync : Timestamp) (st : ServerState) :
    (downloadActivities uid lastSync st).length ≤ 1000 ∧
    ∀ a ∈ downloadActivities uid lastSync st,
      a.userId = uid ∧ lastSync < a.updatedAt ∧ a.syncStatus = "synced" := by
  constructor
  · exact List.length_take_le _ _
  · intro a ha
    have h2 : a ∈ st.activities.filter (activityDownloadFilter uid lastSync) :=
      (mem_sortActsByUpdatedDesc _ _).mp (List.mem_of_mem_take ha)
    have h3 := (List.mem_filter.mp h2).2
    simp only [activityDownloadFilter, Bool.and_eq_true, beq_iff_eq,
      decide_eq_true_eq] at h3
    exact ⟨h3.1.1, h3.1.2, h3.2⟩

theorem downloadDiagnoses_spec (uid : Nat) (lastSync : Timestamp) (st : ServerState) :
    (downloadDiagnoses uid lastSync st).length ≤ 500 ∧
    ∀ d ∈ downloadDiagnoses uid lastSync st,
      d.userId = uid ∧ lastSync < d.updatedAt ∧ d.syncStatus = "synced" := by
  constructor
  · exact List.length_take_le _ _
  · intro d hd
    have h2 : d ∈ st.diagnoses.filter (diagnosisDownloadFilter uid lastSync) :=
      (mem_sortDiagsByUpdatedDesc _ _).mp (List.mem_of_mem_take hd)
    have h3 := (List.mem_filter.mp h2).2
    simp only [diagnosisDownloadFilter, Bool.and_eq_true, beq_iff_eq,
      decide_eq_true_eq] at h3
    exact ⟨h3.1.1, h3.1.2, h3.2⟩

theorem mem_setKey (data : List (String × DownloadVal)) (k : String) (v : DownloadVal)
    (kv : String × DownloadVal) (h : kv ∈ setKey data k v) : kv = (k, v) ∨ kv ∈ data := by
  unfold setKey at h
  split at h
  · rcases List.mem_map.mp h with ⟨kv', hkv', heq⟩
    by_cases hk : kv'.1 == k
    · left; rw [if_pos hk] at heq; exact heq.symm
    · right; rw [if_neg hk] at heq; exact heq ▸ hkv'
  · rcases List.mem_append.mp h with hm | hm
    · exact Or.inr hm
    · exact Or.inl (List.mem_singleton.mp hm)

theorem downloadFetchStep_entries (uid : Nat) (lastSync : Timestamp) (st : ServerState)
    (acc : List (String × DownloadVal)) (dt : String)
    (hacc : ∀ kv ∈ acc,
      (kv.1 = "activities" → kv.2 = .acts (downloadActivities uid lastSync st)) ∧
      (kv.1 = "diagnoses" → kv.2 = .diags (downloadDiagnoses uid lastSync st))) :
    ∀ kv ∈ downloadFetchStep uid lastSync st acc dt,
      (kv.1 = "activities" → kv.2 = .acts (downloadActivities uid lastSync st)) ∧
      (kv.1 = "diagnoses" → kv.2 = .diags (downloadDiagnoses uid lastSync st)) := by
  intro kv hkv
  unfold downloadFetchStep at hkv
  split at hkv
  · rcases mem_setKey _ _ _ _ hkv with rfl | hm
    · exact ⟨fun _ => rfl, fun h => by simp at h⟩
    · exact hacc kv hm
  · rcases mem_setKey _ _ _ _ hkv with rfl | hm
    · exact ⟨fun h => by simp at h, fun _ => rfl⟩
    · exact hacc kv hm
  · split at hkv
    · rcases mem_setKey _ _ _ _ hkv with rfl | hm
      · exact ⟨fun h => by simp at h, fun h => by simp at h⟩
      · exact hacc kv hm
    · exact hacc kv hkv
  · exact hacc kv hkv

theorem downloadData_entries (uid : Nat) (lastSync : Timestamp) (st : ServerState)
    (dataTypes : List String) :
    ∀ kv ∈ downloadData uid lastSync st dataTypes,
      (kv.1 = "activities" → kv.2 = .acts (downloadActivities uid lastSync st)) ∧
      (kv.1 = "diagnoses" → kv.2 = .diags (downloadDiagnoses uid lastSync st)) := by
  unfold downloadData
  have haux : ∀ (dts : List String) (acc : List (String × DownloadVal)),
      (∀ kv ∈ acc,
        (kv.1 = "activities" → kv.2 = .acts (downloadActivities uid lastSync st)) ∧
        (kv.1 = "diagnoses" → kv.2 = .diags (downloadDiagnoses uid lastSync st))) →
      ∀ kv ∈ dts.foldl (downloadFetchStep uid lastSync st) acc,
        (kv.1 = "activities" → kv.2 = .acts (downloadActivities uid lastSync st)) ∧
        (kv.1 = "diagnoses" → kv.2 = .diags (downloadDiagnoses uid lastSync st)) := by
    intro dts
    induction dts with
    | nil => intro acc hacc; exact hacc
    | cons dt dts ih =>
        intro acc hacc
        exact ih _ (downloadFetchStep_entries uid lastSync st acc dt hacc)
  exact haux dataTypes [] (fun kv hkv => absurd hkv (List.not_mem_nil kv))

theorem lookupVal_mem (data : List (String × DownloadVal)) (k : String) (v : DownloadVal)
    (h : lookupVal data k = some v) : ∃ kv ∈ data, kv.1 = k ∧ kv.2 = v := by
  unfold lookupVal at h
  cases hf : data.find? (fun kv => kv.1 == k) with
  | none => rw [hf] at h; exact absurd h (by simp)
  | some kv =>
      rw [hf] at h
      refine ⟨kv, List.mem_of_find?_eq_some hf, ?_, ?_⟩
      · have := List.find?_some hf
        simpa using this
      · simpa using h

/-- C4: for every download call, the `activities` entry of the response
holds only records owned by the caller whose `updatedAt` is strictly
greater than the watermark (`lastSyncTimestamp`, defaulting to the epoch
when absent) and whose `syncStatus` is `synced`, capped at 1000 records;
likewise the `diagnoses` entry, capped at 500. -/
theorem download_watermark_strict_filter (uid : Nat) (did sid : String) (now : Timestamp)
    (dataTypes : List String) (lastSyncTimestamp : Option Timestamp) (st : ServerState) :
    (∀ l, lookupVal (download uid did sid now dataTypes lastSyncTimestamp st).data "activities" =
        some (.acts l) →
      l.length ≤ 1000 ∧
      ∀ a ∈ l, a.userId = uid ∧ lastSyncTimestamp.getD 0 < a.updatedAt ∧
        a.syncStatus = "synced") ∧
    (∀ l, lookupVal (download uid did sid now dataTypes lastSyncTimestamp st).data "diagnoses" =
        some (.diags l) →
      l.length ≤ 500 ∧
      ∀ d ∈ l, d.userId = uid ∧ lastSyncTimestamp.getD 0 < d.updatedAt ∧
        d.syncStatus = "synced") := by
  have hdata : (download uid did sid now dataTypes lastSyncTimestamp st).data =
      downloadData uid (lastSyncTimestamp.getD 0) st dataTypes := rfl
  constructor
  · intro l hl
    rw [hdata] at hl
    rcases lookupVal_mem _ _ _ hl with ⟨kv, hm, hk, hv⟩
    have hval := (downloadData_entries uid (lastSyncTimestamp.getD 0) st dataTypes kv hm).1 hk
    have : l = downloadActivities uid (lastSyncTimestamp.getD 0) st := by
      rw [hval] at hv
      exact (DownloadVal.acts.injEq _ _).mp hv.symm
    rw [this]
    exact downloadActivities_spec uid (lastSyncTimestamp.getD 0) st
  · intro l hl
    rw [hdata] at hl
    rcases lookupVal_mem _ _ _ hl with ⟨kv, hm, hk, hv⟩
    have hval := (downloadData_entries uid (lastSyncTimestamp.getD 0) st dataTypes kv hm).2 hk
    have : l = downloadDiagnoses uid (lastSyncTimestamp.getD 0) st := by
      rw [hval] at hv
      exact (DownloadVal.diags.injEq _ _).mp hv.symm
    rw [this]
    exact downloadDiagnoses_spec uid (lastSyncTimestamp.getD 0) st

/-- C4 witness: a concrete download of one synced activity, with the
lookup hypotheses discharged by evaluation; a record updated exactly at the
watermark (50) is excluded by the strict inequality. -/
theorem download_watermark_strict_filter_witness :
    (∀ a ∈ [storedActivity1],
      a.userId = 1 ∧ (some 10 : Option Timestamp).getD 0 < a.updatedAt ∧
        a.syncStatus = "synced") ∧
    lookupVal (download 1 "d1" "s1" 100 ["activities"] (some 50) oneActivityStore).data
      "activities" = some (.acts []) := by
  constructor
  · have h := ((download_watermark_strict_filter 1 "d1" "s1" 100 ["activities"] (some 10)
      oneActivityStore).1 [storedActivity1] (by decide)).2
    exact h
  · decide

/-! ## Helper lemmas for the download session ledger -/

theorem markCompleted_processedItems (log : SyncLog) (status : String) (now : Timestamp) :
    (log.markCompleted status now).progress.processedItems = log.progress.processedItems := by
  unfold SyncLog.markCompleted; rw [presave_processedItems]

theorem markCompleted_successfulItems (log : SyncLog) (status : String) (now : Timestamp) :
    (log.markCompleted status now).progress.successfulItems = log.progress.successfulItems := by
  unfold SyncLog.markCompleted; rw [presave_successfulItems]

theorem markCompleted_failedItems (log : SyncLog) (status : String) (now : Timestamp) :
    (log.markCompleted status now).progress.failedItems = log.progress.failedItems := by
  unfold SyncLog.markCompleted; rw [presave_failedItems]

theorem initialDownloadLog_totalItems (uid : Nat) (did sid : String) (now : Timestamp) :
    (initialDownloadLog uid did sid now).progress.totalItems = 0 := by
  unfold initialDownloadLog; rw [presave_totalItems]

/-- C5 counterexample: a download fetching one record sets the session's
`processedItems`/`successfulItems` to the aggregate count 1 but leaves
`progress.totalItems` at its schema default 0 — `updateProgress(totalItems,
totalItems, 0)` passes the count as processed/successful only, and nothing
in the download path ever writes `progress.totalItems`. -/
theorem download_progress_totalItems_not_set :
    (download 1 "d1" "s1" 100 ["activities"] none oneActivityStore).totalItems = 1 ∧
    (download 1 "d1" "s1" 100 ["activities"] none oneActivityStore).log.progress.totalItems = 0 ∧
    (download 1 "d1" "s1" 100 ["activities"] none oneActivityStore).log.progress.totalItems ≠
      (download 1 "d1" "s1" 100 ["activities"] none oneActivityStore).totalItems := by
  refine ⟨by decide, by decide, by decide⟩

/-- C5 (amended): for every download call that completes without an
orchestrator-level exception, the session's `progress.processedItems` and
`progress.successfulItems` are set to the aggregate count of fetched
records, `progress.failedItems` to 0, `progress.totalItems` keeps its
schema default 0, and the session is finalized with status `completed`. -/
theorem download_progress_finalization (uid : Nat) (did sid : String) (now : Timestamp)
    (dataTypes : List String) (lastSyncTimestamp : Option Timestamp) (st : ServerState) :
    (download uid did sid now dataTypes lastSyncTimestamp st).log.progress.processedItems =
      (download uid did sid now dataTypes lastSyncTimestamp st).totalItems ∧
    (download uid did sid now dataTypes lastSyncTimestamp st).log.progress.successfulItems =
      (download uid did sid now dataTypes lastSyncTimestamp st).totalItems ∧
    (download uid did sid now dataTypes lastSyncTimestamp st).log.progress.failedItems = 0 ∧
    (download uid did sid now dataTypes lastSyncTimestamp st).log.progress.totalItems = 0 ∧
    (download uid did sid now dataTypes lastSyncTimestamp st).log.status = "completed" := by
  have hlog : (download uid did sid now dataTypes lastSyncTimestamp st).log =
      ((initialDownloadLog uid did sid now).updateProgress
        (downloadTotalItems (downloadData uid (lastSyncTimestamp.getD 0) st dataTypes))
        (downloadTotalItems (downloadData uid (lastSyncTimestamp.getD 0) st dataTypes))
        0).markCompleted "completed" now := rfl
  have htot : (download uid did sid now dataTypes lastSyncTimestamp st).totalItems =
      downloadTotalItems (downloadData uid (lastSyncTimestamp.getD 0) st dataTypes) := rfl
  have hup := updateProgress_counters (initialDownloadLog uid did sid now)
    (downloadTotalItems (downloadData uid (lastSyncTimestamp.getD 0) st dataTypes))
    (downloadTotalItems (downloadData uid (lastSyncTimestamp.getD 0) st dataTypes)) 0
  refine ⟨?_, ?_, ?_, ?_, ?_⟩
  · rw [hlog, htot, markCompleted_processedItems, hup.1]
  · rw [hlog, htot, markCompleted_successfulItems, hup.2.1]
  · rw [hlog, markCompleted_failedItems, hup.2.2.1]
  · rw [hlog, markCompleted_results_agnostic, hup.2.2.2.2,
      initialDownloadLog_totalItems]
  · rw [hlog, markCompleted_status]

/-! ## Helper lemmas for conflict resolution -/

theorem presave_eq_self_of_conflicts_update (log : SyncLog)
    (h : presave log = log) (conflicts : List ConflictEntry) :
    presave { log with conflicts := conflicts } = { log with conflicts := conflicts } := by
  unfold presave at h ⊢
  split
  · next hlt =>
      split at h
      · rw [← h]
      · next hge => exact absurd hlt hge
  · rfl

/-- C9 counterexample: a conflict already resolved to the terminal value
`server_wins` can be resolved again — a second `resolve-conflict` call on
the same item succeeds and moves it to `client_wins`, so terminal
resolutions admit further transitions. -/
theorem conflict_resolution_not_terminal :
    resolvedOnceLog.conflicts.map (fun c => c.resolution) = ["server_wins"] ∧
    (resolveConflict resolvedOnceLog "i1" "client_wins" none 20 2).map
      (fun l => l.conflicts.map (fun c => c.resolution)) = some ["client_wins"] := by
  refine ⟨by decide, by decide⟩

/-- C9 (amended): every conflict entry is created with resolution
`manual_review`; a resolve-conflict call addressed by (session, item id)
that succeeds sets the first matching entry's resolution to the chosen
value (any member of the schema enum, with `resolvedAt`/`resolvedBy`
stamped and the merged payload copied when supplied), mutating only the
conflicts array of its owning session — errors, status, progress and
identity fields are untouched, and the Record Store is not involved; the
transition is NOT enforced as terminal: a later resolve-conflict call may
overwrite the resolution again; and an entry whose resolution is no longer
`manual_review` never appears in the unresolved-conflicts listing. -/
theorem conflict_resolution_lifecycle :
    (∀ (log : SyncLog) (itemId dataType conflictType : String) (localVersion : Item)
        (serverVersion : StoredDiagnosis),
      (log.addConflict itemId dataType conflictType localVersion serverVersion).conflicts =
        log.conflicts ++ [{ itemId := itemId
                            dataType := dataType
                            conflictType := conflictType
                            resolution := "manual_review"
                            localVersion := some localVersion
                            serverVersion := some serverVersion }]) ∧
    (∀ (log : SyncLog) (cid resolution : String) (mergedData : Option Nat)
        (now : Timestamp) (resolver : Nat) (log' : SyncLog),
      presave log = log →
      resolveConflict log cid resolution mergedData now resolver = some log' →
      log'.conflicts =
        updateFirstWith (fun c => c.itemId == cid)
          (applyResolution resolution now resolver mergedData) log.conflicts ∧
      log'.errors = log.errors ∧
      log'.status = log.status ∧
      log'.progress = log.progress ∧
      log'.userId = log.userId ∧
      log'.deviceId = log.deviceId ∧
      log'.sessionId = log.sessionId ∧
      (∀ c : ConflictEntry,
        (applyResolution resolution now resolver mergedData c).resolution = resolution)) ∧
    (∀ (logs : List SyncLog) (uid : Nat) (did : String) (entry : String × ConflictEntry),
      entry ∈ unresolvedConflictListing logs uid did →
      entry.2.resolution = "manual_review") := by
  refine ⟨?_, ?_, ?_⟩
  · intro log itemId dataType conflictType localVersion serverVersion
    exact addConflict_conflicts log itemId dataType conflictType localVersion serverVersion
  · intro log cid resolution mergedData now resolver log' hpres h
    unfold resolveConflict at h
    split at h
    · exact absurd h (by simp)
    · split at h
      · have heq : log' = presave
            { log with conflicts :=
                (updateFirstWith (fun c => c.itemId == cid)
                  (applyResolution resolution now resolver mergedData) log.conflicts) } := by
          exact (Option.some.inj h).symm
        rw [heq, presave_eq_self_of_conflicts_update log hpres]
        refine ⟨rfl, rfl, rfl, rfl, rfl, rfl, rfl, fun c => rfl⟩
      · exact absurd h (by simp)
  · intro logs uid did entry hentry
    unfold unresolvedConflictListing at hentry
    have haux : ∀ (ls : List SyncLog) (acc : List (String × ConflictEntry)),
        (∀ e ∈ acc, e.2.resolution = "manual_review") →
        ∀ e ∈ ls.foldl
          (fun acc l =>
            acc ++ (l.conflicts.filter (fun c => c.resolution == "manual_review")).map
              (fun c => (l.sessionId, c))) acc,
          e.2.resolution = "manual_review" := by
      intro ls
      induction ls with
      | nil => intro acc hacc; exact hacc
      | cons l ls ih =>
          intro acc hacc
          refine ih _ ?_
          intro e he
          rcases List.mem_append.mp he with hm | hm
          · exact hacc e hm
          · rcases List.mem_map.mp hm with ⟨c, hc, rfl⟩
            have := (List.mem_filter.mp hc).2
            simpa using this
    exact haux _ [] (fun e he => absurd he (List.not_mem_nil e)) entry hentry

/-- C9 witness: the lifecycle theorem's resolve clause applied to the
concrete one-conflict session, with the pre-save-normalization and success
hypotheses discharged by evaluation. -/
theorem conflict_resolution_lifecycle_witness :
    resolvedOnceLog.conflicts =
      updateFirstWith (fun c => c.itemId == "i1")
        (applyResolution "server_wins" 10 1 none) oneConflictLog.conflicts ∧
    resolvedOnceLog.errors = oneConflictLog.errors := by
  have h := (conflict_resolution_lifecycle.2.1 oneConflictLog "i1" "server_wins" none 10 1
    resolvedOnceLog (by decide) (by decide))
  exact ⟨h.1, h.2.1⟩

end NSOSync
